import Mathlib

/-!
Verification development for the mem0-mcp-server repository.

The repository contains near-duplicate Python adapters exposing a memory
backend over MCP.  This file gives a shallow embedding of the parts the
claims are about:

* `Json` models Python values as they occur after `json.loads` (dicts are
  association lists in insertion order, which Python dicts preserve;
  numbers are modelled as integers — no claim touches float behaviour).
* `McpServer` embeds `src/mem0_mcp_server.py`: the `handle_request`
  dispatcher and the stdio read-dispatch-write loop `run`.  Network calls
  made through the `requests` library are modelled by an oracle
  `HttpCall → Except String Json`; an `Except.error e` is the Python
  exception with message text `e`.
* `StdioMcp` embeds `src/mem0_stdio_mcp.py`: module initialisation
  (`memory`, and the fallback `memories` dict) and the `call_tool`
  handler, with the Mem0 library modelled by an oracle
  `BkCall → Except String Json`.  `call_tool` also returns the list of
  backend calls it issued, so that scoping claims can be stated.

Python dynamic operations (`x.get`, iteration, `len`) are embedded as
`Except String` computations that fail exactly where CPython raises
(`AttributeError` / `TypeError`); exception message texts are abbreviated
to the exception class name, which no claim inspects.
-/

/-- A parsed JSON / Python value (`json.loads` output). -/
inductive Json where
  | null
  | bool (b : Bool)
  | num (n : Int)
  | str (s : String)
  | arr (xs : List Json)
  | obj (kvs : List (String × Json))

/-- First binding of a key in a Python dict (dicts have unique keys, so
the first match is the binding). -/
def jlookup (kvs : List (String × Json)) (k : String) : Option Json :=
  (kvs.find? (fun p => p.1 = k)).map (fun p => p.2)

/-- Python truthiness of a value (`if x:`). -/
def truthy : Json → Bool
  | .null => false
  | .bool b => b
  | .num n => n != 0
  | .str s => s ≠ ""
  | .arr xs => !xs.isEmpty
  | .obj kvs => !kvs.isEmpty

/-- `x.get(k, d)` — raises `AttributeError` unless `x` is a dict. -/
def pyGet (j : Json) (k : String) (d : Json) : Except String Json :=
  match j with
  | .obj kvs => .ok ((jlookup kvs k).getD d)
  | _ => .error "AttributeError"

/-- A single-quote character, for Python `repr` output. -/
def squote : String := String.singleton (Char.ofNat 39)

mutual
/-- Python `repr` of a value (as interpolated for nested data). -/
def pyRepr : Json → String
  | .null => "None"
  | .bool b => if b then "True" else "False"
  | .num n => toString n
  | .str s => squote ++ s ++ squote
  | .arr xs => "[" ++ String.intercalate ", " (pyReprL xs) ++ "]"
  | .obj kvs => "\x7b" ++ String.intercalate ", " (pyReprKV kvs) ++ "\x7d"

def pyReprL : List Json → List String
  | [] => []
  | x :: xs => pyRepr x :: pyReprL xs

def pyReprKV : List (String × Json) → List String
  | [] => []
  | (k, v) :: xs => (squote ++ k ++ squote ++ ": " ++ pyRepr v) :: pyReprKV xs
end

/-- Python `str()` of a value, as used by f-string interpolation. -/
def pyStr : Json → String
  | .null => "None"
  | .bool b => if b then "True" else "False"
  | .num n => toString n
  | .str s => s
  | .arr xs => pyRepr (.arr xs)
  | .obj kvs => pyRepr (.obj kvs)

mutual
/-- `json.dumps` with the default separators. -/
def dumps : Json → String
  | .null => "null"
  | .bool b => if b then "true" else "false"
  | .num n => toString n
  | .str s => "\"" ++ s ++ "\""
  | .arr xs => "[" ++ String.intercalate ", " (dumpsL xs) ++ "]"
  | .obj kvs => "\x7b" ++ String.intercalate ", " (dumpsKV kvs) ++ "\x7d"

def dumpsL : List Json → List String
  | [] => []
  | x :: xs => dumps x :: dumpsL xs

def dumpsKV : List (String × Json) → List String
  | [] => []
  | (k, v) :: xs => ("\"" ++ k ++ "\": " ++ dumps v) :: dumpsKV xs
end

/-- Python iteration `for x in j` — list elements, string characters,
dict keys; raises `TypeError` on non-iterables. -/
def pyIterate : Json → Except String (List Json)
  | .arr xs => .ok xs
  | .str s => .ok (s.data.map (fun c => .str (String.singleton c)))
  | .obj kvs => .ok (kvs.map (fun p => .str p.1))
  | _ => .error "TypeError"

/-- Python `len(j)`; raises `TypeError` on values without a length. -/
def pyLen : Json → Except String Nat
  | .arr xs => .ok xs.length
  | .str s => .ok s.length
  | .obj kvs => .ok kvs.length
  | _ => .error "TypeError"

/-- Whether a dict value has a key (only meaningful on `obj`). -/
def hasKey (j : Json) (k : String) : Bool :=
  match j with
  | .obj kvs => (jlookup kvs k).isSome
  | _ => false

namespace McpServer

/-! Embedding of `src/mem0_mcp_server.py` (`class MCPServer`). -/

/-- One HTTP call made through the `requests` library. -/
inductive HttpCall where
  | post (url : String) (body : Json)
  | get (url : String) (ps : List (String × Json))
  | del (url : String)

/-- The HTTP backend: for each call, either the decoded JSON body of the
response (`response.json()`), or an exception message. -/
def Http := HttpCall → Except String Json

/-- `self.api_url`, set in `__init__`. -/
def api_url : String := "http://localhost:8765"

/-- The `tools/list` result literal (lines 24–75). -/
def toolsListPayload : Json :=
  .obj [("tools", .arr [
    .obj [("name", .str "mem0_add"),
          ("description", .str "Add a memory to Mem0"),
          ("inputSchema", .obj [
            ("type", .str "object"),
            ("properties", .obj [
              ("messages", .obj [("type", .str "array")]),
              ("user_id", .obj [("type", .str "string")]),
              ("metadata", .obj [("type", .str "object")])]),
            ("required", .arr [.str "messages"])])],
    .obj [("name", .str "mem0_search"),
          ("description", .str "Search memories in Mem0"),
          ("inputSchema", .obj [
            ("type", .str "object"),
            ("properties", .obj [
              ("query", .obj [("type", .str "string")]),
              ("user_id", .obj [("type", .str "string")]),
              ("limit", .obj [("type", .str "integer")])]),
            ("required", .arr [.str "query"])])],
    .obj [("name", .str "mem0_get_all"),
          ("description", .str "Get all memories from Mem0"),
          ("inputSchema", .obj [
            ("type", .str "object"),
            ("properties", .obj [
              ("user_id", .obj [("type", .str "string")])])])],
    .obj [("name", .str "mem0_delete"),
          ("description", .str "Delete a memory from Mem0"),
          ("inputSchema", .obj [
            ("type", .str "object"),
            ("properties", .obj [
              ("memory_id", .obj [("type", .str "string")])]),
            ("required", .arr [.str "memory_id"])])]])]

/-- The `initialize` result literal (lines 121–131). -/
def initPayload : Json :=
  .obj [("protocolVersion", .str "2024-11-05"),
        ("capabilities", .obj [("tools", .obj [])]),
        ("serverInfo", .obj [("name", .str "mem0-mcp-server"),
                             ("version", .str "1.0.0")])]

/-- `{"content": [{"type": "text", "text": json.dumps(response.json())}]}`. -/
def contentPayload (j : Json) : Json :=
  .obj [("content", .arr [.obj [("type", .str "text"),
                                ("text", .str (dumps j))]])]

/-- The body of the `try:` block inside the `tools/call` branch
(lines 84–116): dispatch on the tool name and perform the HTTP call.
Exceptions (propagated here as `Except.error`) are caught by the caller. -/
def tryToolsCall (bk : Http) (toolName arguments : Json) : Except String Json :=
  match toolName with
  | .str s =>
    if s = "mem0_add" then do
      let j ← bk (.post (api_url ++ "/memories") arguments)
      pure (contentPayload j)
    else if s = "mem0_search" then do
      let j ← bk (.post (api_url ++ "/memories/search") arguments)
      pure (contentPayload j)
    else if s = "mem0_get_all" then do
      let user_id ← pyGet arguments "user_id" .null
      let ps := if truthy user_id then [("user_id", user_id)] else []
      let j ← bk (.get (api_url ++ "/memories") ps)
      pure (contentPayload j)
    else if s = "mem0_delete" then do
      let memory_id ← pyGet arguments "memory_id" .null
      let j ← bk (.del (api_url ++ "/memories/" ++ pyStr memory_id))
      pure (contentPayload j)
    else
      pure (.obj [("error", .str ("Unknown tool: " ++ s))])
  | other =>
    pure (.obj [("error", .str ("Unknown tool: " ++ pyStr other))])

/-- `MCPServer.handle_request` (lines 19–134).  `Except.error` models an
exception escaping the method (caught by `run`'s outer handler). -/
def handle_request (bk : Http) (request : Json) : Except String Json := do
  let method ← pyGet request "method" (.str "")
  match method with
  | .str s =>
    if s = "tools/list" then
      pure toolsListPayload
    else if s = "tools/call" then do
      let params ← pyGet request "params" (.obj [])
      let toolName ← pyGet params "name" (.str "")
      let arguments ← pyGet params "arguments" (.obj [])
      match tryToolsCall bk toolName arguments with
      | .ok payload => pure payload
      | .error e => pure (.obj [("error", .str e)])
    else if s = "initialize" then
      pure initPayload
    else
      pure (.obj [("error", .str ("Unknown method: " ++ s))])
  | other =>
    pure (.obj [("error", .str ("Unknown method: " ++ pyStr other))])

/-- One stdin line, after `readline`: either invalid JSON (the
`json.JSONDecodeError` branch) or the parsed value. -/
inductive Line where
  | invalid
  | valid (j : Json)

/-- The success envelope built at lines 155–159. -/
def okEnvelope (idv payload : Json) : Json :=
  .obj [("jsonrpc", .str "2.0"), ("id", idv), ("result", payload)]

/-- The error envelope built at lines 166–173. -/
def errEnvelope (idv : Json) (e : String) : Json :=
  .obj [("jsonrpc", .str "2.0"), ("id", idv),
        ("error", .obj [("code", .num (-32603)), ("message", .str e)])]

/-- What one loop iteration does with a parsed request. -/
inductive StepOut where
  | emit (resp : Json)
  | crash

/-- Handling of a single parsed value inside the loop body: the `try:`
covers `handle_request` and envelope construction; the `except:` handler
reads `request.get("id")`, which itself raises when the parsed value is
not a dict, killing the loop. -/
def step (bk : Http) (j : Json) : StepOut :=
  match (do
    let payload ← handle_request bk j
    let idv ← pyGet j "id" .null
    pure (okEnvelope idv payload) : Except String Json) with
  | .ok resp => .emit resp
  | .error e =>
    match pyGet j "id" .null with
    | .ok idv => .emit (errEnvelope idv e)
    | .error _ => .crash

/-- `MCPServer.run` (lines 136–175) over a finite stdin: the emitted
response objects in order, and `true` iff the loop reached end-of-file
(rather than dying to an exception raised in its `except:` handler). -/
def run (bk : Http) : List Line → List Json × Bool
  | [] => ([], true)
  | .invalid :: rest => run bk rest
  | .valid j :: rest =>
    match step bk j with
    | .emit resp =>
      let (outs, clean) := run bk rest
      (resp :: outs, clean)
    | .crash => ([], false)

end McpServer

namespace StdioMcp

/-! Embedding of `src/mem0_stdio_mcp.py`: module initialisation, the
`list_tools` registration and the `call_tool` handler.  The Mem0 library
object is modelled by an oracle from backend calls to either a decoded
result value or an exception message. -/

/-- One call into the Mem0 library made by `call_tool`. -/
inductive BkCall where
  | add (messages : List Json) (user_id : String) (metadata : Option Json)
  | search (query : Json) (user_id : String) (limit : Nat)
  | getAll (user_id : String)
  | del (memory_id : Json)

/-- The Mem0 library backend. -/
def Bk := BkCall → Except String Json

/-- The module-level globals: `memory` (the Mem0 object, `None` when
`Memory.from_config` raised) and the fallback `memories` dict with its
counter, created in the `except` branch (lines 74–79).  On successful
initialisation the Python names `memories`/`memory_counter` are never
bound; they are modelled as empty there, which `call_tool` never
observes. -/
structure Globals where
  memory : Option Bk
  memories : List (String × Json)
  memory_counter : Nat

/-- Module initialisation (lines 70–79): `try: memory = Memory.from_config(...)
except: memory = None; memories = dict(); memory_counter = 0`.  Total — an
initialisation failure never escapes, so the import cannot crash. -/
def module_init (r : Except String Bk) : Globals :=
  match r with
  | .ok m => ⟨some m, [], 0⟩
  | .error _ => ⟨none, [], 0⟩

/-- `default_user_id` (line 134). -/
def default_user_id : String := "alexander_fedin"

/-- One `types.TextContent(type="text", text=...)` value. -/
structure TextContent where
  ctype : String
  text : String

/-- Shorthand for a text content item. -/
def tc (s : String) : TextContent := ⟨"text", s⟩

/-- The fixed uninitialised-service reply (lines 136–140). -/
def notInitText : String :=
  "Memory service not initialized. Please check database connections."

/-- The per-request `except Exception` reply (lines 253–258). -/
def errText (tool e : String) : String :=
  "Error executing " ++ tool ++ ": " ++ e

/-- `arguments.get(k, d)` on the (dict) `arguments` parameter. -/
def argGet (args : List (String × Json)) (k : String) (d : Json) : Json :=
  (jlookup args k).getD d

/-- Python substring test `needle in hay` for strings. -/
def strContainsB (hay needle : String) : Bool :=
  decide (needle.data <:+: hay.data)

/-- Python membership `"id" in m`: dict keys, string substring, list
element; `TypeError` otherwise. -/
def pyContains (m : Json) (k : String) : Except String Bool :=
  match m with
  | .obj kvs => .ok (jlookup kvs k).isSome
  | .str s => .ok (strContainsB s k)
  | .arr xs => .ok (xs.any (fun x => match x with | .str t => t = k | _ => false))
  | _ => .error "TypeError"

/-- Python subscript `m[k]` with a string key. -/
def pySub (m : Json) (k : String) : Except String Json :=
  match m with
  | .obj kvs =>
    match jlookup kvs k with
    | some v => .ok v
    | none => .error "KeyError"
  | _ => .error "TypeError"

/-- The id scan of lines 165–169: first element of `result["results"]`
that contains an `"id"`, if any. -/
def memIdScan : List Json → Except String (Option Json)
  | [] => .ok none
  | m :: rest => do
    let c ← pyContains m "id"
    if c then do
      let v ← pySub m "id"
      pure (some v)
    else
      memIdScan rest

/-- The f-string of line 185, reading the triple from a normalised
mapping with `N/A` defaults. -/
def tripleLine (kvs : List (String × Json)) : String :=
  "  - " ++ pyStr ((jlookup kvs "source").getD (.str "N/A")) ++
  " → " ++ pyStr ((jlookup kvs "relationship").getD (.str "N/A")) ++
  " → " ++ pyStr ((jlookup kvs "target").getD (.str "N/A"))

/-- One iteration of the `added_entities` loop (lines 176–185): the
normalisation of `rel_item` (`rel = rel_item[0] if isinstance(rel_item[0],
dict) else dict()` for a truthy list, `rel = rel_item` for a dict,
`continue` otherwise) and the line emitted when `rel` is truthy. -/
def added_entity_line : Json → Option String
  | .arr (x :: _) =>
    match x with
    | .obj kvs => if !kvs.isEmpty then some (tripleLine kvs) else none
    | _ => none
  | .arr [] => none
  | .obj kvs => if !kvs.isEmpty then some (tripleLine kvs) else none
  | _ => none

/-- The relationship lines the loop appends, in order. -/
def added_entity_lines (items : List Json) : List String :=
  items.filterMap added_entity_line

/-- Response-text construction for `mem0_add` (lines 160–187), given the
backend's `result` and the `content` argument. -/
def format_add (result content : Json) : Except String String :=
  let base := "Added memory: " ++ pyStr content
  match result with
  | .obj kvs => do
    let t1 ←
      match jlookup kvs "results" with
      | some rv =>
        if truthy rv then do
          let items ← pyIterate rv
          let idOpt ← memIdScan items
          match idOpt with
          | some idv =>
            pure ("Added memory [" ++ pyStr idv ++ "]: " ++ pyStr content)
          | none => pure base
        else pure base
      | none => pure base
    match jlookup kvs "relations" with
    | some relations =>
      if truthy relations then do
        let ae ← pyGet relations "added_entities" .null
        if truthy ae then do
          let items ← pyIterate ae
          pure (t1 ++ "\n\nGraph relationships created:" ++
                String.join ((added_entity_lines items).map (fun l => "\n" ++ l)))
        else pure t1
      else pure t1
    | none => pure t1
  | _ => pure base

/-- `f"{score:.2f}"`; scores are modelled as integers (no claim touches
float rendering), and non-numbers raise as in Python. -/
def fmt2f : Json → Except String String
  | .num n => .ok (toString n ++ ".00")
  | _ => .error "TypeError"

/-- One search result line (line 204). -/
def searchLine (mem : Json) : Except String String := do
  let score ← pyGet mem "score" (.num 0)
  let idv ← pyGet mem "id" (.str "N/A")
  let inner ← pyGet mem "text" (.str "N/A")
  let mtext ← pyGet mem "memory" inner
  let sc ← fmt2f score
  pure ("- [" ++ pyStr idv ++ "] " ++ pyStr mtext ++ " (score: " ++ sc ++ ")\n")

/-- The fixed empty-search reply (lines 207, 209). -/
def noSearchText : String := "No memories found matching your query"

/-- Response-text construction for `mem0_search` (lines 198–209). -/
def format_search (results : Json) : Except String String :=
  match results with
  | .obj kvs =>
    if !kvs.isEmpty then
      let ml := (jlookup kvs "results").getD (.arr [])
      if truthy ml then do
        let n ← pyLen ml
        let items ← pyIterate ml
        let lines ← items.mapM searchLine
        pure ("Found " ++ toString n ++ " memories:\n" ++ String.join lines)
      else pure noSearchText
    else pure noSearchText
  | _ => pure noSearchText

/-- One listing line (line 226). -/
def listLine (mem : Json) : Except String String := do
  let idv ← pyGet mem "id" (.str "N/A")
  let inner ← pyGet mem "text" (.str "N/A")
  let mtext ← pyGet mem "memory" inner
  pure ("- [" ++ pyStr idv ++ "] " ++ pyStr mtext ++ "\n")

/-- One graph-relationship line in the listing (line 232). -/
def relLine (rel : Json) : Except String String := do
  let s ← pyGet rel "source" (.str "N/A")
  let r ← pyGet rel "relationship" (.str "N/A")
  let t ← pyGet rel "target" (.str "N/A")
  pure ("  - " ++ pyStr s ++ " → " ++ pyStr r ++ " → " ++ pyStr t ++ "\n")

/-- The fixed empty-store reply (lines 236, 238). -/
def noStoreText : String := "No memories stored yet"

/-- Response-text construction for `mem0_list` (lines 214–238). -/
def format_list (results : Json) : Except String String :=
  if truthy results then
    let pair : Json × Json :=
      match results with
      | .obj kvs =>
        if (jlookup kvs "results").isSome then
          ((jlookup kvs "results").getD .null,
           (jlookup kvs "relations").getD (.arr []))
        else (results, .arr [])
      | _ => (results, .arr [])
    let ml := pair.1
    let relations := pair.2
    if truthy ml then do
      let n ← pyLen ml
      let items ← pyIterate ml
      let lines ← items.mapM listLine
      let relPart ←
        if truthy relations then do
          let rels ← pyIterate relations
          let rlines ← rels.mapM relLine
          pure ("\nGraph relationships:\n" ++ String.join rlines)
        else pure ""
      pure ("All memories (" ++ toString n ++ "):\n" ++ String.join lines ++ relPart)
    else pure noStoreText
  else pure noStoreText

/-- `call_tool` (lines 129–258).  Returns the (unchanged) globals, the
backend calls issued, and the returned text contents; `call_tool` never
lets an exception escape (its `try` covers the whole dispatch). -/
def call_tool (g : Globals) (name : String) (args : List (String × Json)) :
    Globals × List BkCall × List TextContent :=
  match g.memory with
  | none => (g, [], [tc notInitText])
  | some bk =>
    if name = "mem0_add" then
      let content := argGet args "content" .null
      let tags := argGet args "tags" (.arr [])
      let messages : List Json :=
        [.obj [("role", .str "user"), ("content", content)],
         .obj [("role", .str "assistant"),
               ("content", .str ("I" ++ squote ++ "ll remember that: " ++ pyStr content))]]
      let metadata : Option Json :=
        if truthy tags then some (.obj [("tags", tags)]) else none
      let call := BkCall.add messages default_user_id metadata
      match bk call with
      | .ok result =>
        match format_add result content with
        | .ok text => (g, [call], [tc text])
        | .error e => (g, [call], [tc (errText "mem0_add" e)])
      | .error e => (g, [call], [tc (errText "mem0_add" e)])
    else if name = "mem0_search" then
      let query := argGet args "query" (.str "")
      let call := BkCall.search query default_user_id 10
      match bk call with
      | .ok results =>
        match format_search results with
        | .ok text => (g, [call], [tc text])
        | .error e => (g, [call], [tc (errText "mem0_search" e)])
      | .error e => (g, [call], [tc (errText "mem0_search" e)])
    else if name = "mem0_list" then
      let call := BkCall.getAll default_user_id
      match bk call with
      | .ok results =>
        match format_list results with
        | .ok text => (g, [call], [tc text])
        | .error e => (g, [call], [tc (errText "mem0_list" e)])
      | .error e => (g, [call], [tc (errText "mem0_list" e)])
    else if name = "mem0_delete" then
      let memory_id := argGet args "memory_id" .null
      let call := BkCall.del memory_id
      match bk call with
      | .ok _ => (g, [call], [tc ("Deleted memory " ++ pyStr memory_id)])
      | .error e => (g, [call], [tc (errText "mem0_delete" e)])
    else
      (g, [], [tc ("Unknown tool: " ++ name)])

/-- `list_tools` (lines 81–127): the registered tool list.  The Python
function reads no mutable state; it is embedded as a function of the
module globals to make that independence a provable statement. -/
def list_tools (_g : Globals) : List Json :=
  [.obj [("name", .str "mem0_add"),
         ("description", .str "Add a memory"),
         ("inputSchema", .obj [
           ("type", .str "object"),
           ("properties", .obj [
             ("content", .obj [("type", .str "string"),
               ("description", .str "The content to store in memory")]),
             ("tags", .obj [("type", .str "array"),
               ("items", .obj [("type", .str "string")]),
               ("description", .str "Optional tags")])]),
           ("required", .arr [.str "content"])])],
   .obj [("name", .str "mem0_search"),
         ("description", .str "Search memories"),
         ("inputSchema", .obj [
           ("type", .str "object"),
           ("properties", .obj [
             ("query", .obj [("type", .str "string"),
               ("description", .str "Search query")])]),
           ("required", .arr [.str "query"])])],
   .obj [("name", .str "mem0_list"),
         ("description", .str "List all memories"),
         ("inputSchema", .obj [
           ("type", .str "object"),
           ("properties", .obj [])])],
   .obj [("name", .str "mem0_delete"),
         ("description", .str "Delete a memory"),
         ("inputSchema", .obj [
           ("type", .str "object"),
           ("properties", .obj [
             ("memory_id", .obj [("type", .str "string"),
               ("description", .str "Memory ID to delete")])]),
           ("required", .arr [.str "memory_id"])])]]

/-- The user scope a backend call addresses, when it has one. -/
def callScope : BkCall → Option String
  | .add _ u _ => some u
  | .search _ u _ => some u
  | .getAll u => some u
  | .del _ => none

end StdioMcp

namespace StdioMcp

/-- Modelled from the spec (C6): the claim's normalisation as literally
stated — an element that is a non-empty list whose first element is a
mapping, or a mapping directly, is normalised and its triple read with
`N/A` defaults; elements of any other shape are skipped. -/
def spec_entity_line : Json → Option String
  | .arr (x :: _) =>
    match x with
    | .obj kvs => some (tripleLine kvs)
    | _ => none
  | .obj kvs => some (tripleLine kvs)
  | _ => none

/-- The claim's per-element normalisation applied to a whole list. -/
def spec_entity_lines (items : List Json) : List String :=
  items.filterMap spec_entity_line

/-- The amended claim (C6): as `spec_entity_line`, but the normalised
mapping must additionally be non-empty to be emitted. -/
def spec_entity_line_amended : Json → Option String
  | .arr (x :: _) =>
    match x with
    | .obj (p :: ps) => some (tripleLine (p :: ps))
    | _ => none
  | .obj (p :: ps) => some (tripleLine (p :: ps))
  | _ => none

/-- The amended claim's normalisation applied to a whole list. -/
def spec_entity_lines_amended (items : List Json) : List String :=
  items.filterMap spec_entity_line_amended

/-- A concrete backend whose delete raises a not-found error, used to
instantiate the C7 theorem. -/
def c7bk : Bk := fun _ => .error "Memory with id 42 not found"

/-- A concrete backend returning an empty object, used to instantiate the
C10 theorem. -/
def c10bk : Bk := fun _ => .ok (.obj [])

end StdioMcp

namespace McpServer

/-- Value of a field of a (response or request) object. -/
def jfield (j : Json) (k : String) : Option Json :=
  match j with
  | .obj kvs => jlookup kvs k
  | _ => none

/-- The parsed values of the lines that parsed, in input order. -/
def parsedLines : List Line → List Json
  | [] => []
  | .invalid :: rest => parsedLines rest
  | .valid j :: rest => j :: parsedLines rest

/-- The id the loop echoes for a request: `request.get("id")`. -/
def reqEcho (j : Json) : Json :=
  match j with
  | .obj kvs => (jlookup kvs "id").getD .null
  | _ => .null

/-- Whether an optional field value is the version string "2.0". -/
def isV2 : Option Json → Bool
  | some (.str s) => s = "2.0"
  | _ => false

/-- Well-formed JSON-RPC response envelope: `jsonrpc: "2.0"` and exactly
one of `result` / `error`. -/
def respOk (r : Json) : Bool :=
  isV2 (jfield r "jsonrpc") && (hasKey r "result" ^^ hasKey r "error")

/-- A concrete backend answering `null` to every HTTP call, used to
instantiate closed theorems. -/
def cbkNull : Http := fun _ => .ok .null

/-- A concrete backend raising on every HTTP call, used to instantiate
closed theorems. -/
def cbkDown : Http := fun _ => .error "connection refused"

end McpServer

/-- C5: if backend initialisation fails at import time the process does
not crash (module initialisation still yields a value, with `memory =
None`), and thereafter every tool call, for every tool name and every
argument dict, returns the fixed not-initialized text instead of
raising. -/
theorem C5_uninitialized_backend_fixed_reply (e : String) (name : String)
    (args : List (String × Json)) :
    StdioMcp.module_init (.error e) = ⟨none, [], 0⟩ ∧
    StdioMcp.call_tool (StdioMcp.module_init (.error e)) name args =
      (StdioMcp.module_init (.error e), [],
       [StdioMcp.tc StdioMcp.notInitText]) := by
  exact ⟨rfl, rfl⟩

/-- C6 counterexample: the claim says an element that is a mapping
directly is normalised and its fields read with `N/A` defaults, but on
the empty mapping the code's truthiness guard skips the element, so the
code and the claim disagree at `[{}]`. -/
theorem C6_counterexample :
    StdioMcp.added_entity_lines [Json.obj []] = [] ∧
    StdioMcp.spec_entity_lines [Json.obj []] = ["  - N/A → N/A → N/A"] ∧
    StdioMcp.added_entity_lines [Json.obj []] ≠
      StdioMcp.spec_entity_lines [Json.obj []] := by
  refine ⟨rfl, rfl, ?_⟩
  intro h
  simp [StdioMcp.added_entity_lines, StdioMcp.spec_entity_lines,
    StdioMcp.added_entity_line, StdioMcp.spec_entity_line] at h

/-- Pointwise agreement between the code's `added_entities` loop body and
the amended claim. -/
theorem entity_line_eq (j : Json) :
    StdioMcp.added_entity_line j = StdioMcp.spec_entity_line_amended j := by
  cases j with
  | null => rfl
  | bool b => rfl
  | num n => rfl
  | str s => rfl
  | arr xs =>
    cases xs with
    | nil => rfl
    | cons x t =>
      cases x with
      | null => rfl
      | bool b => rfl
      | num n => rfl
      | str s => rfl
      | arr ys => rfl
      | obj kvs => cases kvs with | nil => rfl | cons p ps => rfl
  | obj kvs => cases kvs with | nil => rfl | cons p ps => rfl

/-- C6 (amended): the adapter normalises each element of `added_entities`
that is either a non-empty list whose first element is a non-empty
mapping, or a non-empty mapping directly, reads the triple with `N/A`
defaults, and skips every other element (including empty mappings)
without error. -/
theorem C6_relations_normalization (items : List Json) :
    StdioMcp.added_entity_lines items =
      StdioMcp.spec_entity_lines_amended items := by
  unfold StdioMcp.added_entity_lines StdioMcp.spec_entity_lines_amended
  induction items with
  | nil => rfl
  | cons x xs ih => simp [List.filterMap_cons, entity_line_eq x, ih]

/-- C8: evaluation of the code at the failing input.  With the backend
uninitialized and the fallback dict in place, `mem0_add` issues no
backend call, inserts nothing into the fallback mapping, and returns the
fixed not-initialized text; a subsequent `mem0_list` does not retrieve
the record either. -/
theorem C8_fallback_mapping_never_used :
    StdioMcp.call_tool (StdioMcp.module_init (.error "connection refused"))
        "mem0_add" [("content", Json.str "X")] =
      (StdioMcp.module_init (.error "connection refused"), [],
       [StdioMcp.tc StdioMcp.notInitText]) ∧
    (StdioMcp.call_tool (StdioMcp.module_init (.error "connection refused"))
        "mem0_add" [("content", Json.str "X")]).1.memories = [] ∧
    (StdioMcp.call_tool
        (StdioMcp.call_tool (StdioMcp.module_init (.error "connection refused"))
          "mem0_add" [("content", Json.str "X")]).1
        "mem0_list" []).2.2 = [StdioMcp.tc StdioMcp.notInitText] := by
  exact ⟨rfl, rfl, rfl⟩

/-- C7: when the backend's delete raises a not-found error for the
requested id, `call_tool` returns a single text response carrying that
not-found indication, and that response is not the success message. -/
theorem C7_delete_missing_id (bk : StdioMcp.Bk) (g : StdioMcp.Globals)
    (args : List (String × Json)) (m : String)
    (hg : g.memory = some bk)
    (hbk : bk (.del (StdioMcp.argGet args "memory_id" .null)) = .error m)
    (hnf : "not found".data <:+: m.data) :
    (StdioMcp.call_tool g "mem0_delete" args).2.2 =
      [StdioMcp.tc (StdioMcp.errText "mem0_delete" m)] ∧
    "not found".data <:+: (StdioMcp.errText "mem0_delete" m).data ∧
    ∀ s : String, StdioMcp.errText "mem0_delete" m ≠ "Deleted memory " ++ s := by
  obtain ⟨mem, mems, cnt⟩ := g
  simp only [StdioMcp.Globals.memory] at hg
  subst hg
  refine ⟨?_, ?_, ?_⟩
  · simp [StdioMcp.call_tool, hbk]
  · have h2 : (StdioMcp.errText "mem0_delete" m).data =
        "Error executing mem0_delete: ".data ++ m.data :=
      String.data_append "Error executing mem0_delete: " m
    rw [h2]
    exact hnf.trans
      (List.suffix_append "Error executing mem0_delete: ".data m.data).isInfix
  · intro s h
    have h2 := congrArg String.data h
    simp [StdioMcp.errText, String.data_append] at h2

/-- C7 witness: a concrete uninhabited id against a backend raising
"Memory with id 42 not found". -/
theorem C7_delete_missing_id_witness :
    (StdioMcp.call_tool ⟨some StdioMcp.c7bk, [], 0⟩ "mem0_delete"
        [("memory_id", Json.str "42")]).2.2 =
      [StdioMcp.tc (StdioMcp.errText "mem0_delete" "Memory with id 42 not found")] ∧
    "not found".data <:+:
      (StdioMcp.errText "mem0_delete" "Memory with id 42 not found").data ∧
    ∀ s : String, StdioMcp.errText "mem0_delete" "Memory with id 42 not found" ≠
      "Deleted memory " ++ s :=
  C7_delete_missing_id StdioMcp.c7bk ⟨some StdioMcp.c7bk, [], 0⟩
    [("memory_id", Json.str "42")] "Memory with id 42 not found"
    rfl rfl (by decide)

/-- C10: every backend call issued by `call_tool` that carries a user
scope carries the hardcoded scope `alexander_fedin`, and the behaviour of
`call_tool` depends only on the argument fields it reads (`content`,
`tags`, `query`, `memory_id`) — so two calls whose arguments differ only
in a purported user or agent identifier are indistinguishable and address
the same user's records. -/
theorem C10_hardcoded_scope (g : StdioMcp.Globals) (name : String)
    (args args2 : List (String × Json))
    (hc : jlookup args "content" = jlookup args2 "content")
    (ht : jlookup args "tags" = jlookup args2 "tags")
    (hq : jlookup args "query" = jlookup args2 "query")
    (hm : jlookup args "memory_id" = jlookup args2 "memory_id") :
    (∀ c ∈ (StdioMcp.call_tool g name args).2.1, ∀ u,
        StdioMcp.callScope c = some u → u = StdioMcp.default_user_id) ∧
    StdioMcp.call_tool g name args = StdioMcp.call_tool g name args2 := by
  constructor
  · obtain ⟨mem, mems, cnt⟩ := g
    cases mem with
    | none =>
      intro c hcm u hu
      simp [StdioMcp.call_tool] at hcm
    | some bk =>
      intro c hcm u hu
      simp only [StdioMcp.call_tool] at hcm
      iterate 8 (all_goals try split at hcm)
      all_goals simp only [List.mem_singleton, List.not_mem_nil] at hcm
      all_goals subst hcm
      all_goals simp [StdioMcp.callScope] at hu
      all_goals exact hu.symm
  · simp only [StdioMcp.call_tool, StdioMcp.argGet, hc, ht, hq, hm]

/-- For a request that parsed to a dict, one loop iteration always emits
exactly one well-formed envelope echoing the request's id. -/
theorem step_obj (bk : McpServer.Http) (kvs : List (String × Json)) :
    ∃ resp, McpServer.step bk (.obj kvs) = .emit resp ∧
      McpServer.jfield resp "jsonrpc" = some (.str "2.0") ∧
      McpServer.jfield resp "id" = some ((jlookup kvs "id").getD .null) ∧
      McpServer.respOk resp = true := by
  cases hr : McpServer.handle_request bk (.obj kvs) with
  | ok p =>
    refine ⟨McpServer.okEnvelope ((jlookup kvs "id").getD .null) p,
      ?_, rfl, rfl, rfl⟩
    simp only [McpServer.step, hr]
    rfl
  | error e =>
    refine ⟨McpServer.errEnvelope ((jlookup kvs "id").getD .null) e,
      ?_, rfl, rfl, rfl⟩
    simp only [McpServer.step, hr]
    rfl

/-- C1: over any stdin whose JSON-valid lines parse to objects, the loop
reaches end-of-file, emits exactly one response per parsed request, in
request order with the request ids echoed back, and every response
carries `jsonrpc: "2.0"` and exactly one of `result` / `error`. -/
theorem C1_one_response_per_request (bk : McpServer.Http) (lines : List McpServer.Line)
    (h : ∀ j, McpServer.Line.valid j ∈ lines → ∃ kvs, j = Json.obj kvs) :
    (McpServer.run bk lines).2 = true ∧
    (McpServer.run bk lines).1.map (fun r => McpServer.jfield r "id") =
      (McpServer.parsedLines lines).map (fun j => some (McpServer.reqEcho j)) ∧
    ∀ r ∈ (McpServer.run bk lines).1, McpServer.respOk r = true := by
  induction lines with
  | nil => exact ⟨rfl, rfl, by intro r hr; simp [McpServer.run] at hr⟩
  | cons l rest ih =>
    have hrest : ∀ j, McpServer.Line.valid j ∈ rest → ∃ kvs, j = Json.obj kvs :=
      fun j hj => h j (List.mem_cons_of_mem l hj)
    obtain ⟨ihc, ihm, ihw⟩ := ih hrest
    cases l with
    | invalid =>
      exact ⟨ihc, ihm, ihw⟩
    | valid j =>
      obtain ⟨kvs, rfl⟩ := h j (List.mem_cons_self _ _)
      obtain ⟨resp, hstep, hv, hid, hwf⟩ := step_obj bk kvs
      refine ⟨?_, ?_, ?_⟩
      · simp [McpServer.run, hstep, ihc]
      · simp [McpServer.run, hstep, McpServer.parsedLines, hid,
          McpServer.reqEcho, ihm]
      · intro r hrr
        simp only [McpServer.run, hstep] at hrr
        rcases List.mem_cons.mp hrr with h1 | h1
        · exact h1 ▸ hwf
        · exact ihw r h1

/-- C1 witness: a two-request stdin with an unparsable line in between. -/
theorem C1_one_response_per_request_witness :
    (McpServer.run McpServer.cbkNull
        [.valid (.obj [("method", Json.str "tools/list"), ("id", Json.num 1)]),
         .invalid,
         .valid (.obj [("method", Json.str "nope"), ("id", Json.num 2)])]).2 = true ∧
    (McpServer.run McpServer.cbkNull
        [.valid (.obj [("method", Json.str "tools/list"), ("id", Json.num 1)]),
         .invalid,
         .valid (.obj [("method", Json.str "nope"), ("id", Json.num 2)])]).1.map
        (fun r => McpServer.jfield r "id") =
      (McpServer.parsedLines
        [.valid (.obj [("method", Json.str "tools/list"), ("id", Json.num 1)]),
         .invalid,
         .valid (.obj [("method", Json.str "nope"), ("id", Json.num 2)])]).map
        (fun j => some (McpServer.reqEcho j)) ∧
    ∀ r ∈ (McpServer.run McpServer.cbkNull
        [.valid (.obj [("method", Json.str "tools/list"), ("id", Json.num 1)]),
         .invalid,
         .valid (.obj [("method", Json.str "nope"), ("id", Json.num 2)])]).1,
      McpServer.respOk r = true :=
  C1_one_response_per_request McpServer.cbkNull
    [.valid (.obj [("method", Json.str "tools/list"), ("id", Json.num 1)]),
     .invalid,
     .valid (.obj [("method", Json.str "nope"), ("id", Json.num 2)])]
    (by
      intro j hj
      simp only [List.mem_cons, List.not_mem_nil, or_false] at hj
      rcases hj with h1 | h1 | h1
      · cases h1; exact ⟨_, rfl⟩
      · cases h1
      · cases h1; exact ⟨_, rfl⟩)

/-- Reduction of an `Except` bind on a success value. -/
theorem ebind_ok {α β : Type} (a : α) (f : α → Except String β) :
    ((Except.ok a : Except String α) >>= f) = f a := rfl

/-- C2: a well-formed `tools/call` request naming a known tool always gets
a success envelope — `handle_request` cannot raise past the tool
dispatch, so the response has a `result` field and no JSON-RPC `error`
field, and the read loop goes on with the remaining lines. -/
theorem C2_known_tool_no_rpc_error (bk : McpServer.Http)
    (kvs pkvs : List (String × Json)) (s : String) (rest : List McpServer.Line)
    (hmethod : jlookup kvs "method" = some (.str "tools/call"))
    (hparams : jlookup kvs "params" = some (.obj pkvs))
    (hname : jlookup pkvs "name" = some (.str s))
    (hknown : s = "mem0_add" ∨ s = "mem0_search" ∨ s = "mem0_get_all" ∨
      s = "mem0_delete") :
    ∃ payload,
      McpServer.handle_request bk (.obj kvs) = .ok payload ∧
      McpServer.step bk (.obj kvs) =
        .emit (McpServer.okEnvelope ((jlookup kvs "id").getD .null) payload) ∧
      hasKey (McpServer.okEnvelope ((jlookup kvs "id").getD .null) payload)
        "error" = false ∧
      hasKey (McpServer.okEnvelope ((jlookup kvs "id").getD .null) payload)
        "result" = true ∧
      McpServer.run bk (.valid (.obj kvs) :: rest) =
        (McpServer.okEnvelope ((jlookup kvs "id").getD .null) payload ::
          (McpServer.run bk rest).1,
         (McpServer.run bk rest).2) := by
  have hh : McpServer.handle_request bk (.obj kvs) =
      match McpServer.tryToolsCall bk (.str s)
          ((jlookup pkvs "arguments").getD (.obj [])) with
      | .ok payload => .ok payload
      | .error e => .ok (.obj [("error", .str e)]) := by
    simp [McpServer.handle_request, pyGet, hmethod, hparams, hname, ebind_ok]
    rfl
  cases htr : McpServer.tryToolsCall bk (.str s)
      ((jlookup pkvs "arguments").getD (.obj [])) with
  | ok p =>
    have hhr : McpServer.handle_request bk (.obj kvs) = .ok p := by
      rw [hh, htr]
    refine ⟨p, hhr, ?_, rfl, rfl, ?_⟩
    · simp only [McpServer.step, hhr]
      rfl
    · have hstep : McpServer.step bk (.obj kvs) =
          .emit (McpServer.okEnvelope ((jlookup kvs "id").getD .null) p) := by
        simp only [McpServer.step, hhr]
        rfl
      simp only [McpServer.run, hstep]
  | error e =>
    have hhr : McpServer.handle_request bk (.obj kvs) =
        .ok (.obj [("error", .str e)]) := by
      rw [hh, htr]
    refine ⟨.obj [("error", .str e)], hhr, ?_, rfl, rfl, ?_⟩
    · simp only [McpServer.step, hhr]
      rfl
    · have hstep : McpServer.step bk (.obj kvs) =
          .emit (McpServer.okEnvelope ((jlookup kvs "id").getD .null)
            (.obj [("error", .str e)])) := by
        simp only [McpServer.step, hhr]
        rfl
      simp only [McpServer.run, hstep]

/-- C2 witness: a `mem0_add` call against a backend that raises — the
error is surfaced inside `result`, not as a JSON-RPC error. -/
theorem C2_known_tool_no_rpc_error_witness :
    ∃ payload,
      McpServer.handle_request McpServer.cbkDown
          (.obj [("method", Json.str "tools/call"), ("id", Json.num 7),
                 ("params", .obj [("name", Json.str "mem0_add"),
                   ("arguments", .obj [("messages", Json.arr [])])])]) =
        .ok payload ∧
      McpServer.step McpServer.cbkDown
          (.obj [("method", Json.str "tools/call"), ("id", Json.num 7),
                 ("params", .obj [("name", Json.str "mem0_add"),
                   ("arguments", .obj [("messages", Json.arr [])])])]) =
        .emit (McpServer.okEnvelope
          ((jlookup [("method", Json.str "tools/call"), ("id", Json.num 7),
            ("params", .obj [("name", Json.str "mem0_add"),
              ("arguments", .obj [("messages", Json.arr [])])])] "id").getD .null)
          payload) ∧
      hasKey (McpServer.okEnvelope
          ((jlookup [("method", Json.str "tools/call"), ("id", Json.num 7),
            ("params", .obj [("name", Json.str "mem0_add"),
              ("arguments", .obj [("messages", Json.arr [])])])] "id").getD .null)
          payload) "error" = false ∧
      hasKey (McpServer.okEnvelope
          ((jlookup [("method", Json.str "tools/call"), ("id", Json.num 7),
            ("params", .obj [("name", Json.str "mem0_add"),
              ("arguments", .obj [("messages", Json.arr [])])])] "id").getD .null)
          payload) "result" = true ∧
      McpServer.run McpServer.cbkDown
          (.valid (.obj [("method", Json.str "tools/call"), ("id", Json.num 7),
            ("params", .obj [("name", Json.str "mem0_add"),
              ("arguments", .obj [("messages", Json.arr [])])])]) :: []) =
        (McpServer.okEnvelope
          ((jlookup [("method", Json.str "tools/call"), ("id", Json.num 7),
            ("params", .obj [("name", Json.str "mem0_add"),
              ("arguments", .obj [("messages", Json.arr [])])])] "id").getD .null)
          payload :: (McpServer.run McpServer.cbkDown []).1,
         (McpServer.run McpServer.cbkDown []).2) :=
  C2_known_tool_no_rpc_error McpServer.cbkDown
    [("method", Json.str "tools/call"), ("id", Json.num 7),
     ("params", .obj [("name", Json.str "mem0_add"),
       ("arguments", .obj [("messages", Json.arr [])])])]
    [("name", Json.str "mem0_add"), ("arguments", .obj [("messages", Json.arr [])])]
    "mem0_add" [] rfl rfl rfl (Or.inl rfl)

/-- C3 counterexample: for the unknown method "foo" the loop emits a
success envelope whose `result` payload describes the error, with no
JSON-RPC `error` field and hence no numeric code — contradicting the
claim that unknown methods use the `error` field. -/
theorem C3_counterexample :
    McpServer.run McpServer.cbkNull
        [.valid (.obj [("method", Json.str "foo"), ("id", Json.num 1)])] =
      ([McpServer.okEnvelope (Json.num 1)
          (.obj [("error", Json.str "Unknown method: foo")])], true) ∧
    hasKey (McpServer.okEnvelope (Json.num 1)
        (.obj [("error", Json.str "Unknown method: foo")])) "error" = false ∧
    hasKey (McpServer.okEnvelope (Json.num 1)
        (.obj [("error", Json.str "Unknown method: foo")])) "result" = true :=
  ⟨rfl, rfl, rfl⟩

/-- C3 (amended): a parsed request whose method string is none of the
recognized methods gets a success envelope whose `result` payload is
`{"error": "Unknown method: <m>"}`; the JSON-RPC `error` field (numeric
code -32603) is reserved for requests whose handling raises. -/
theorem C3_unknown_method_result_envelope (bk : McpServer.Http)
    (kvs : List (String × Json)) (m : String)
    (hm : jlookup kvs "method" = some (.str m))
    (h1 : m ≠ "tools/list") (h2 : m ≠ "tools/call") (h3 : m ≠ "initialize") :
    McpServer.handle_request bk (.obj kvs) =
      .ok (.obj [("error", .str ("Unknown method: " ++ m))]) ∧
    McpServer.step bk (.obj kvs) =
      .emit (McpServer.okEnvelope ((jlookup kvs "id").getD .null)
        (.obj [("error", .str ("Unknown method: " ++ m))])) ∧
    hasKey (McpServer.okEnvelope ((jlookup kvs "id").getD .null)
        (.obj [("error", .str ("Unknown method: " ++ m))])) "error" = false := by
  have hh : McpServer.handle_request bk (.obj kvs) =
      .ok (.obj [("error", .str ("Unknown method: " ++ m))]) := by
    simp [McpServer.handle_request, pyGet, hm, h1, h2, h3, ebind_ok]
    rfl
  refine ⟨hh, ?_, rfl⟩
  simp only [McpServer.step, hh]
  rfl

/-- C3 amended-claim witness at the method "foo". -/
theorem C3_unknown_method_result_envelope_witness :
    McpServer.handle_request McpServer.cbkNull
        (.obj [("method", Json.str "foo"), ("id", Json.num 3)]) =
      .ok (.obj [("error", .str ("Unknown method: " ++ "foo"))]) ∧
    McpServer.step McpServer.cbkNull
        (.obj [("method", Json.str "foo"), ("id", Json.num 3)]) =
      .emit (McpServer.okEnvelope
        ((jlookup [("method", Json.str "foo"), ("id", Json.num 3)] "id").getD .null)
        (.obj [("error", .str ("Unknown method: " ++ "foo"))])) ∧
    hasKey (McpServer.okEnvelope
        ((jlookup [("method", Json.str "foo"), ("id", Json.num 3)] "id").getD .null)
        (.obj [("error", .str ("Unknown method: " ++ "foo"))])) "error" = false :=
  C3_unknown_method_result_envelope McpServer.cbkNull
    [("method", Json.str "foo"), ("id", Json.num 3)] "foo"
    rfl (by decide) (by decide) (by decide)

/-- C4 counterexample: a line holding valid JSON that is not an object
(`[]`) makes the error path itself raise, so the loop dies before
end-of-file and the following request is never answered — refuting "the
loop terminates only at end-of-file". -/
theorem C4_counterexample :
    McpServer.run McpServer.cbkNull
        [.valid (Json.arr []),
         .valid (.obj [("method", Json.str "tools/list"), ("id", Json.num 2)])] =
      ([], false) :=
  rfl

/-- C4 (amended): a line that fails to parse as JSON produces no output
and the loop continues; and the loop reaches end-of-file provided every
line that does parse parses to a JSON object. -/
theorem C4_malformed_skipped_eof (bk : McpServer.Http)
    (rest lines : List McpServer.Line)
    (h : ∀ j, McpServer.Line.valid j ∈ lines → ∃ kvs, j = Json.obj kvs) :
    McpServer.run bk (.invalid :: rest) = McpServer.run bk rest ∧
    (McpServer.run bk lines).2 = true := by
  refine ⟨rfl, ?_⟩
  induction lines with
  | nil => rfl
  | cons l tl ih =>
    have htl : ∀ j, McpServer.Line.valid j ∈ tl → ∃ kvs, j = Json.obj kvs :=
      fun j hj => h j (List.mem_cons_of_mem l hj)
    cases l with
    | invalid => exact ih htl
    | valid j =>
      obtain ⟨kvs, rfl⟩ := h j (List.mem_cons_self _ _)
      obtain ⟨resp, hstep, _, _, _⟩ := step_obj bk kvs
      simp [McpServer.run, hstep, ih htl]

/-- C4 amended-claim witness: a malformed line followed by a request. -/
theorem C4_malformed_skipped_eof_witness :
    McpServer.run McpServer.cbkNull [McpServer.Line.invalid] =
      McpServer.run McpServer.cbkNull [] ∧
    (McpServer.run McpServer.cbkNull
        [.invalid, .valid (.obj [("method", Json.str "tools/list")])]).2 =
      true :=
  C4_malformed_skipped_eof McpServer.cbkNull []
    [.invalid, .valid (.obj [("method", Json.str "tools/list")])]
    (by
      intro j hj
      simp only [List.mem_cons, List.not_mem_nil, or_false] at hj
      rcases hj with h1 | h1
      · cases h1
      · cases h1; exact ⟨_, rfl⟩)

/-- C9: a `tools/list` request always gets the fixed registry payload,
independent of the backend (and hence of any tool calls handled in
between); and the stdio variant's `list_tools` is independent of the
module state. -/
theorem C9_tools_list_stable (bk bk2 : McpServer.Http)
    (kvs : List (String × Json))
    (hm : jlookup kvs "method" = some (.str "tools/list")) :
    McpServer.handle_request bk (.obj kvs) = .ok McpServer.toolsListPayload ∧
    McpServer.handle_request bk (.obj kvs) =
      McpServer.handle_request bk2 (.obj kvs) ∧
    ∀ g g2 : StdioMcp.Globals, StdioMcp.list_tools g = StdioMcp.list_tools g2 := by
  have hh : ∀ b : McpServer.Http,
      McpServer.handle_request b (.obj kvs) = .ok McpServer.toolsListPayload := by
    intro b
    simp [McpServer.handle_request, pyGet, hm, ebind_ok]
    rfl
  exact ⟨hh bk, (hh bk).trans (hh bk2).symm, fun g g2 => rfl⟩

/-- C9 witness: two different backends, same `tools/list` reply. -/
theorem C9_tools_list_stable_witness :
    McpServer.handle_request McpServer.cbkNull
        (.obj [("method", Json.str "tools/list"), ("id", Json.num 1)]) =
      .ok McpServer.toolsListPayload ∧
    McpServer.handle_request McpServer.cbkNull
        (.obj [("method", Json.str "tools/list"), ("id", Json.num 1)]) =
      McpServer.handle_request McpServer.cbkDown
        (.obj [("method", Json.str "tools/list"), ("id", Json.num 1)]) ∧
    ∀ g g2 : StdioMcp.Globals, StdioMcp.list_tools g = StdioMcp.list_tools g2 :=
  C9_tools_list_stable McpServer.cbkNull McpServer.cbkDown
    [("method", Json.str "tools/list"), ("id", Json.num 1)] rfl

/-- C10 witness: two searches whose arguments differ only in a purported
`user_id` produce identical backend calls (scoped to the hardcoded user)
and identical responses. -/
theorem C10_hardcoded_scope_witness :
    (∀ c ∈ (StdioMcp.call_tool ⟨some StdioMcp.c10bk, [], 0⟩ "mem0_search"
        [("query", Json.str "pets"), ("user_id", Json.str "alice")]).2.1, ∀ u,
        StdioMcp.callScope c = some u → u = StdioMcp.default_user_id) ∧
    StdioMcp.call_tool ⟨some StdioMcp.c10bk, [], 0⟩ "mem0_search"
        [("query", Json.str "pets"), ("user_id", Json.str "alice")] =
      StdioMcp.call_tool ⟨some StdioMcp.c10bk, [], 0⟩ "mem0_search"
        [("query", Json.str "pets"), ("user_id", Json.str "bob")] :=
  C10_hardcoded_scope ⟨some StdioMcp.c10bk, [], 0⟩ "mem0_search"
    [("query", Json.str "pets"), ("user_id", Json.str "alice")]
    [("query", Json.str "pets"), ("user_id", Json.str "bob")]
    rfl rfl rfl rfl
